import Mathlib

/-!
Verification of the order/stock/payment reconciliation core of the
`bot-order` repository (a Discord digital-goods storefront).

The Python sources `order_manager.py`, `stock_manager.py` and
`webhook_server.py` are embedded shallowly: every handler becomes a pure
Lean function threading an explicit database state.  The repository's
`database.py` and `payment_gateway.py` modules are not part of the source
tree that was given, so their primitives (`add_balance`, `deduct_balance`,
`create_topup`, `reserve_stock_codes`, ...) are modelled from the
specification's Ledger / Stock Pool / Payment Reconciler contracts; each
such definition carries a doc comment saying so.
-/

namespace BotOrder

/-- Status of a `Topup` row: `pending`, `success` or `failed`. -/
inductive TopupStatus where
  | pending
  | success
  | failed
deriving DecidableEq, Repr

/-- Status of an `Order` row: `pending`, `completed`, `failed` or `cancelled`. -/
inductive OrderStatus where
  | pending
  | completed
  | failed
  | cancelled
deriving DecidableEq, Repr

/-! ## Python string helpers

The webhook handler manipulates the gateway `order_id` with
`str.split('-')`, `str.startswith('TOPUP-')` and `int(...)`.  These are
re-implemented structurally over `List Char` so that concrete witnesses
evaluate inside the kernel. -/

/-- Accumulating decimal parser: consumes the whole list; any non-digit
character makes the parse fail, as `int(...)` does in Python. -/
def digitsToNat : List Char → Nat → Option Nat
  | [], acc => some acc
  | c :: rest, acc =>
    if 48 ≤ c.toNat ∧ c.toNat ≤ 57 then digitsToNat rest (acc * 10 + (c.toNat - 48))
    else none

/-- Model of Python `int(str)` on a character list: an optional leading
minus sign followed by at least one decimal digit.  (Python additionally
strips whitespace and accepts a leading plus; the webhook order ids never
use either.) -/
def pyInt : List Char → Option Int
  | [] => none
  | '-' :: rest => if rest.isEmpty then none else (digitsToNat rest 0).map (fun n => -(n : Int))
  | cs => (digitsToNat cs 0).map (fun n => (n : Int))

/-- Auxiliary for `splitOnDash`: `cur` is the reversed current segment. -/
def splitDashAux (cur : List Char) : List Char → List (List Char)
  | [] => [cur.reverse]
  | c :: rest =>
    if c = '-' then cur.reverse :: splitDashAux [] rest
    else splitDashAux (c :: cur) rest

/-- Model of Python `s.split('-')`. -/
def splitOnDash (cs : List Char) : List (List Char) := splitDashAux [] cs

/-- Model of Python `s.startswith('TOPUP-')`. -/
def startsWithTOPUP : List Char → Bool
  | 'T' :: 'O' :: 'P' :: 'U' :: 'P' :: '-' :: _ => true
  | _ => false

/-! ## Payment reconciler state (webhook side) -/

/-- One row of the `topups` table. -/
structure TopupRow where
  user_id : Int
  amount : Int
  payment_type : String
  transaction_id : Option String
  status : TopupStatus
deriving DecidableEq, Repr

/-- Database state seen by the webhook server: the per-user balances of the
`users` table and the `topups` table keyed by gateway `order_id`. -/
structure WebState where
  balances : Int → Int
  topups : String → Option TopupRow

/-- Modelled from the spec: `database.add_balance` is absent from the given
sources.  Per the Ledger contract, `AddBalance(userID, amount)` fails with
`InvalidAmount` if `amount ≤ 0` and otherwise atomically adds `amount` and
returns the new balance. -/
def add_balance (user_id : Int) (amount : Int) (s : WebState) : Option Int × WebState :=
  if amount ≤ 0 then (none, s)
  else
    let nb := s.balances user_id + amount
    (some nb, { s with balances := fun v => if v = user_id then nb else s.balances v })

/-- Modelled from the spec: `database.create_topup` is absent from the
given sources.  Per the Payment Reconciler contract and the INSERT shown in
`fix_db.py`, it upserts the topup row for `order_id` with status
`pending`. -/
def create_topup (user_id : Int) (amount : Int) (order_id : String)
    (payment_type : String) (transaction_id : Option String) (s : WebState) : WebState :=
  { s with
    topups := fun oid =>
      if oid = order_id then
        some ⟨user_id, amount, payment_type, transaction_id, TopupStatus.pending⟩
      else s.topups oid }

/-- Modelled from the spec: `database.update_topup_status` is absent from
the given sources.  It updates the status of the topup row for `order_id`
(if one exists) and never touches the Ledger. -/
def update_topup_status (order_id : String) (st : TopupStatus) (s : WebState) : WebState :=
  { s with
    topups := fun oid =>
      if oid = order_id then (s.topups order_id).map (fun r => { r with status := st })
      else s.topups oid }

/-- Shallow embedding of `webhook_server.handle_payment_success`
(`webhook_server.py`, lines 108-211): extract the user id from the
`order_id` (`parts = order_id.split('-')`, `user_id = int(parts[1])`); for
a `TOPUP-` id, skip if the existing topup row is already `success`,
otherwise upsert the row, credit the balance and set the status to
`success` (or `failed` if the credit failed); for a non-topup id just set
the status to `success`. -/
def handle_payment_success (order_id : String) (amount : Int) (payment_type : String)
    (transaction_id : Option String) (s : WebState) : Bool × WebState :=
  let parts := splitOnDash order_id.data
  if parts.length < 3 then (false, s)
  else
    match pyInt (parts.getD 1 []) with
    | none => (false, s)
    | some user_id =>
      if startsWithTOPUP order_id.data then
        let already : Bool :=
          match s.topups order_id with
          | some row => decide (row.status = TopupStatus.success)
          | none => false
        if already then (true, s)
        else
          let s1 := create_topup user_id amount order_id payment_type transaction_id s
          match add_balance user_id amount s1 with
          | (some _, s2) => (true, update_topup_status order_id TopupStatus.success s2)
          | (none, s2) => (false, update_topup_status order_id TopupStatus.failed s2)
      else
        (true, update_topup_status order_id TopupStatus.success s)

/-! ## Webhook endpoint -/

/-- A webhook notification body that parsed as a JSON object; each field of
the Midtrans payload may be present or missing. -/
structure Notification where
  order_id : Option String
  status_code : Option String
  gross_amount : Option String
  transaction_status : Option String
  signature_key : Option String
  payment_type : Option String
  transaction_id : Option String
deriving DecidableEq, Repr

/-- Result of `payment_gateway.parse_webhook_notification`. -/
structure ParsedNotification where
  valid : Bool
  order_id : String
  status : String
  gross_amount : String
  transaction_status : String
  payment_type : String
  transaction_id : Option String
deriving DecidableEq, Repr

/-- Modelled from the spec: the gateway's transaction-status vocabulary is
mapped to the three-way internal status `success` / `pending` / `failed`
(`settlement` and `capture` mean success; `deny`, `cancel`, `expire` and
`failure` mean failed). -/
def mapTransactionStatus (ts : String) : String :=
  if ts = "settlement" ∨ ts = "capture" then "success"
  else if ts = "pending" then "pending"
  else if ts = "deny" ∨ ts = "cancel" ∨ ts = "expire" ∨ ts = "failure" then "failed"
  else ts

/-- Modelled from the spec: `payment_gateway.parse_webhook_notification` is
absent from the given sources.  Per the Payment Reconciler contract it
computes the expected signature as a keyed hash over
`orderID ‖ statusCode ‖ grossAmount ‖ serverKey`, compares it with the
supplied `signature_key`, rejects on mismatch or missing required fields,
and maps the transaction status to `success` / `pending` / `failed`.  The
hash itself is library code and is passed in as the parameter `sigHash`. -/
def parse_webhook_notification (sigHash : String → String) (n : Notification)
    (server_key : String) : ParsedNotification :=
  match n.order_id, n.status_code, n.gross_amount, n.transaction_status, n.signature_key with
  | some oid, some sc, some ga, some ts, some sig =>
    if sigHash (oid ++ sc ++ ga ++ server_key) = sig then
      { valid := true
        order_id := oid
        status := mapTransactionStatus ts
        gross_amount := ga
        transaction_status := ts
        payment_type := n.payment_type.getD "qris"
        transaction_id := n.transaction_id }
    else
      { valid := false, order_id := oid, status := "", gross_amount := ga
        transaction_status := ts, payment_type := "", transaction_id := none }
  | _, _, _, _, _ =>
      { valid := false, order_id := "", status := "", gross_amount := ""
        transaction_status := "", payment_type := "", transaction_id := none }

/-- An HTTP response of the webhook endpoint: status code plus the
`{status, message}` JSON body. -/
structure HttpResponse where
  code : Nat
  status : String
  message : String
deriving DecidableEq, Repr

/-- Shallow embedding of `webhook_server.midtrans_webhook`
(`webhook_server.py`, lines 31-106).  The request body is `none` when
`request.get_json()` yielded no (falsy) JSON data, in which case the
endpoint answers 400; an invalid signature or missing fields also answer
400; a verified notification is dispatched on its mapped status and always
answers 200; an exception while processing (here: `int(gross_amount)`
failing) is caught and still answers 200. -/
def midtrans_webhook (sigHash : String → String) (server_key : String)
    (body : Option Notification) (s : WebState) : HttpResponse × WebState :=
  match body with
  | none => (⟨400, "error", "No JSON data received"⟩, s)
  | some n =>
    let parsed := parse_webhook_notification sigHash n server_key
    if parsed.valid = false then
      (⟨400, "error", "Invalid signature or missing fields"⟩, s)
    else
      match pyInt parsed.gross_amount.data with
      | none => (⟨200, "error", "Internal server error"⟩, s)
      | some gross =>
        if parsed.status = "success" then
          (⟨200, "success", "Notification processed"⟩,
            (handle_payment_success parsed.order_id gross parsed.payment_type
              parsed.transaction_id s).2)
        else if parsed.status = "pending" then
          (⟨200, "success", "Notification processed"⟩,
            update_topup_status parsed.order_id TopupStatus.pending s)
        else if parsed.status = "failed" then
          (⟨200, "success", "Notification processed"⟩,
            update_topup_status parsed.order_id TopupStatus.failed s)
        else
          (⟨200, "success", "Notification processed"⟩, s)

/-- State after `n` in-order deliveries of the identical success webhook
notification, each processed by `handle_payment_success`. -/
def processDeliveries (order_id : String) (amount : Int) (payment_type : String)
    (transaction_id : Option String) : Nat → WebState → WebState
  | 0, s => s
  | n + 1, s =>
      processDeliveries order_id amount payment_type transaction_id n
        (handle_payment_success order_id amount payment_type transaction_id s).2

/-! ## Order lifecycle and stock pool

The order manager and the stock manager share the `users`, `orders` and
`stock` tables.  User and order ids are `Nat` here (Discord snowflakes and
autoincrement row ids); balances are non-negative integers per the Ledger
data model.  The `Orders` namespace holds this state and the database
primitives it uses. -/

namespace Orders

/-- One row of the `stock` table: the (possibly encrypted) payload, its
type, the availability flag (cleared when the code is used), the
reservation reference, the encryption flag and bookkeeping fields. -/
structure StockItem where
  code : List Char
  code_type : String
  is_available : Bool
  reserved_for_order : Option Nat
  is_encrypted : Bool
  added_by : Option Nat
  used_by : Option Nat
deriving DecidableEq, Repr

/-- One row of the `orders` table. -/
structure OrderRow where
  order_number : String
  user_id : Nat
  package_type : String
  code_quantity : Nat
  total_price : Nat
  payment_method : String
  status : OrderStatus
  delivery_status : Option String
deriving DecidableEq, Repr

/-- The configuration values of `config.py` consulted by the order, stock
and delivery paths; `packages` is `config.get_package_info` returning
`(quantity, price)`. -/
structure Config where
  MAX_CODES_PER_ORDER : Nat
  AUTO_DELIVERY_ENABLED : Bool
  ENABLE_ORDER_CANCELLATION : Bool
  ENABLE_REFUND : Bool
  ENCRYPT_STOCK_CODES : Bool
  packages : String → Option (Nat × Nat)

/-- Database state seen by the order and stock managers: balances, the
`orders` table keyed by row id, the `stock` table as an id-keyed
association list, the autoincrement counters, and the warnings emitted via
`logger.warning`. -/
structure OMState where
  balances : Nat → Nat
  orders : Nat → Option OrderRow
  stock : List (Nat × StockItem)
  next_order_id : Nat
  next_stock_id : Nat
  log : List String

/-- Modelled from the spec: `database.get_balance` is absent from the given
sources; it returns the balance, `0` for unknown users. -/
def get_balance (user_id : Nat) (s : OMState) : Nat := s.balances user_id

/-- Modelled from the spec: `database.deduct_balance` is absent from the
given sources.  Per the Ledger contract it returns `false` without mutation
when the current balance is below `amount` and otherwise atomically
subtracts it. -/
def deduct_balance (user_id : Nat) (amount : Nat) (s : OMState) : Bool × OMState :=
  if s.balances user_id < amount then (false, s)
  else
    (true, { s with balances := fun v => if v = user_id then s.balances user_id - amount else s.balances v })

/-- Modelled from the spec: `database.add_balance` on the order-manager
side; fails with `InvalidAmount` when `amount ≤ 0` (for `Nat`: when it is
`0`), otherwise adds `amount` and returns the new balance. -/
def refund_balance (user_id : Nat) (amount : Nat) (s : OMState) : Option Nat × OMState :=
  if amount = 0 then (none, s)
  else
    let nb := s.balances user_id + amount
    (some nb, { s with balances := fun v => if v = user_id then nb else s.balances v })

/-- Modelled from the spec: `database.create_order` is absent from the
given sources.  It inserts a `pending` order row at the next autoincrement
id and returns `(order_id, order_number)`; the order number follows the
`ORD-<user>-...` format with the timestamp/random suffix abstracted by the
row id. -/
def create_order (user_id : Nat) (package_type : String) (code_quantity : Nat)
    (total_price : Nat) (payment_method : String) (s : OMState) : (Nat × String) × OMState :=
  let oid := s.next_order_id
  let onum := "ORD-" ++ toString user_id ++ "-" ++ toString oid
  ((oid, onum),
    { s with
      orders := fun i =>
        if i = oid then
          some ⟨onum, user_id, package_type, code_quantity, total_price, payment_method,
            OrderStatus.pending, none⟩
        else s.orders i
      next_order_id := oid + 1 })

/-- Modelled from the spec: `database.update_order_status` is absent from
the given sources.  It sets the order's status and, when a delivery status
is supplied, its `delivery_status`. -/
def update_order_status (order_id : Nat) (st : OrderStatus) (ds : Option String)
    (s : OMState) : OMState :=
  { s with
    orders := fun i =>
      if i = order_id then
        (s.orders order_id).map (fun o =>
          { o with status := st, delivery_status := ds.elim o.delivery_status some })
      else s.orders i }

/-- A stock row counts as available when its `is_available` flag is set and
it is not reserved for any order. -/
def stockAvailable (it : StockItem) : Bool :=
  it.is_available && it.reserved_for_order = none

/-- Modelled from the spec: `database.get_available_stock_count` is absent
from the given sources; per `CountAvailable` it counts the stock rows in
the `Available` state. -/
def get_available_stock_count (s : OMState) : Nat :=
  (s.stock.filter (fun p => stockAvailable p.2)).length

/-- Modelled from the spec: `database.reserve_stock_codes` is absent from
the given sources.  Per `ReserveCodes(orderID, count)` it atomically
selects up to `count` available rows, flips them to `Reserved(orderID)` and
returns the selected ids; when fewer are available it reserves what it can
and returns a short list. -/
def reserve_stock_codes (order_id : Nat) (count : Nat) (s : OMState) : List Nat × OMState :=
  let ids := ((s.stock.filter (fun p => stockAvailable p.2)).map Prod.fst).take count
  (ids,
    { s with
      stock := s.stock.map (fun p =>
        if p.1 ∈ ids then (p.1, { p.2 with reserved_for_order := some order_id }) else p) })

/-- Modelled from the spec: `database.get_reserved_codes` is absent from
the given sources; it returns the stock rows reserved for the order (id and
row). -/
def get_reserved_codes (order_id : Nat) (s : OMState) : List (Nat × StockItem) :=
  s.stock.filter (fun p => p.2.reserved_for_order = some order_id)

/-- Modelled from the spec: `database.mark_codes_as_used` is absent from
the given sources.  Per `ConsumeReserved` it flips the given rows to
consumed: the availability flag is cleared and the consuming user
recorded. -/
def mark_codes_as_used (stock_ids : List Nat) (user_id : Nat) (s : OMState) : OMState :=
  { s with
    stock := s.stock.map (fun p =>
      if p.1 ∈ stock_ids then (p.1, { p.2 with is_available := false, used_by := some user_id })
      else p) }

/-- Appends a `logger.warning` message to the state; only the warnings of
the verified paths are recorded. -/
def logWarning (msg : String) (s : OMState) : OMState :=
  { s with log := s.log ++ [msg] }

/-- Result of `order_manager.validate_order_request`. -/
structure ValidationResult where
  valid : Bool
  error : Option String
deriving DecidableEq, Repr

/-- Shallow embedding of `order_manager.validate_order_request`
(`order_manager.py`, lines 24-94): package existence, quantity ceiling,
sufficient balance, sufficient available stock; read-only. -/
def validate_order_request (cfg : Config) (user_id : Nat) (package_type : String)
    (s : OMState) : ValidationResult :=
  match cfg.packages package_type with
  | none => ⟨false, some "Invalid package type"⟩
  | some (quantity, price) =>
    if cfg.MAX_CODES_PER_ORDER < quantity then ⟨false, some "Maximum codes per order exceeded"⟩
    else if get_balance user_id s < price then ⟨false, some "Insufficient balance"⟩
    else if get_available_stock_count s < quantity then ⟨false, some "Insufficient stock"⟩
    else ⟨true, none⟩

/-- Result of `order_manager.create_new_order`. -/
structure CreateResult where
  success : Bool
  order_id : Option Nat
  order_number : Option String
  error : Option String
deriving DecidableEq, Repr

/-- The segment of `order_manager.create_new_order` that runs after
`deduct_balance` succeeded (`order_manager.py`, lines 140-189): insert the
order row, reserve stock, and on a reservation shortfall refund the debit
via `add_balance` and mark the order `failed` / `stock_unavailable`.  The
shortfall arises from a concurrent writer in the documented TOCTOU window,
so this segment is stated over an arbitrary post-debit state. -/
def create_order_after_debit (user_id : Nat) (package_type payment_method : String)
    (quantity price : Nat) (s1 : OMState) : CreateResult × OMState :=
  let ((oid, onum), s2) := create_order user_id package_type quantity price payment_method s1
  if oid = 0 then
    let s3 := (refund_balance user_id price s2).2
    (⟨false, none, none, some "Failed to create order record"⟩, s3)
  else
    let (stock_ids, s3) := reserve_stock_codes oid quantity s2
    if stock_ids.length < quantity then
      let s4 := (refund_balance user_id price s3).2
      let s5 := update_order_status oid OrderStatus.failed (some "stock_unavailable") s4
      (⟨false, some oid, some onum, some "Failed to reserve stock"⟩, s5)
    else
      (⟨true, some oid, some onum, none⟩, s3)

/-- Shallow embedding of `order_manager.create_new_order`
(`order_manager.py`, lines 100-199): validate, deduct the balance, then run
`create_order_after_debit`. -/
def create_new_order (cfg : Config) (user_id : Nat) (package_type : String)
    (payment_method : String) (s : OMState) : CreateResult × OMState :=
  let v := validate_order_request cfg user_id package_type s
  if v.valid = false then (⟨false, none, none, v.error⟩, s)
  else
    match cfg.packages package_type with
    | none => (⟨false, none, none, some "Invalid package type"⟩, s)
    | some (quantity, price) =>
      match deduct_balance user_id price s with
      | (false, s1) => (⟨false, none, none, some "Failed to deduct balance"⟩, s1)
      | (true, s1) => create_order_after_debit user_id package_type payment_method quantity price s1

/-- Outcome of one invocation of the external delivery handler: a returned
`{success: ...}` dict or a raised exception. -/
inductive DeliveryOutcome where
  | ok (success : Bool)
  | raises
deriving DecidableEq, Repr

/-- The delivery collaborator `deliver(userID, orderNumber, codes)`. -/
def DeliveryFn := Nat → String → List (Nat × StockItem) → DeliveryOutcome

/-- Result of `order_manager.process_order` / `retry_order_delivery`. -/
structure ProcessResult where
  success : Bool
  delivered : Bool
  error : Option String
  manual_delivery_required : Bool
  retry_possible : Bool
deriving DecidableEq, Repr

/-- Shallow embedding of `order_manager.process_order`
(`order_manager.py`, lines 205-313): return success immediately when the
order is already completed; fail the order (`no_codes`) when no codes are
reserved; warn on a quantity mismatch but proceed; invoke the delivery
handler when one is supplied and auto-delivery is enabled (an exception
counts as failure); on success consume the codes and complete the order; on
failure keep the order `pending` / `delivery_failed` with the stock still
reserved; without a handler mark `pending_manual_delivery`. -/
def process_order (cfg : Config) (dh : Option DeliveryFn) (order_id : Nat)
    (s : OMState) : ProcessResult × OMState :=
  match s.orders order_id with
  | none => (⟨false, false, some "Order not found", false, false⟩, s)
  | some order =>
    if order.status = OrderStatus.completed then
      (⟨true, true, none, false, false⟩, s)
    else
      let codes := get_reserved_codes order_id s
      if codes.isEmpty then
        (⟨false, false, some "No codes reserved for this order", false, false⟩,
          update_order_status order_id OrderStatus.failed (some "no_codes") s)
      else
        let s0 :=
          if codes.length ≠ order.code_quantity then
            logWarning "Code quantity mismatch" s
          else s
        match dh, cfg.AUTO_DELIVERY_ENABLED with
        | some f, true =>
          let delivery_success :=
            match f order.user_id order.order_number codes with
            | DeliveryOutcome.ok b => b
            | DeliveryOutcome.raises => false
          if delivery_success then
            let s1 := mark_codes_as_used (codes.map Prod.fst) order.user_id s0
            let s2 := update_order_status order_id OrderStatus.completed (some "delivered") s1
            (⟨true, true, none, false, false⟩, s2)
          else
            (⟨false, false, some "Delivery failed", false, true⟩,
              update_order_status order_id OrderStatus.pending (some "delivery_failed") s0)
        | _, _ =>
          (⟨true, false, none, true, false⟩,
            update_order_status order_id OrderStatus.pending (some "pending_manual_delivery") s0)

/-- Result of `order_manager.cancel_order`. -/
structure CancelResult where
  success : Bool
  refunded : Bool
  error : Option String
deriving DecidableEq, Repr

/-- Shallow embedding of `order_manager.cancel_order`
(`order_manager.py`, lines 319-406): refuse when cancellation is disabled,
the order is unknown, completed, or already cancelled; otherwise release
every stock row reserved for the order, refund balance-paid orders when
refunds are enabled, and set the status to `cancelled`. -/
def cancel_order (cfg : Config) (order_id : Nat) (refund : Bool)
    (s : OMState) : CancelResult × OMState :=
  if cfg.ENABLE_ORDER_CANCELLATION = false then
    (⟨false, false, some "Order cancellation is disabled"⟩, s)
  else
    match s.orders order_id with
    | none => (⟨false, false, some "Order not found"⟩, s)
    | some order =>
      if order.status = OrderStatus.completed then
        (⟨false, false, some "Cannot cancel completed order"⟩, s)
      else if order.status = OrderStatus.cancelled then
        (⟨false, false, some "Order already cancelled"⟩, s)
      else
        let s1 :=
          { s with
            stock := s.stock.map (fun p =>
              if p.2.reserved_for_order = some order_id then
                (p.1, { p.2 with reserved_for_order := none })
              else p) }
        let rs :=
          if refund && cfg.ENABLE_REFUND && (order.payment_method == "balance") then
            match refund_balance order.user_id order.total_price s1 with
            | (some _, su) => (true, su)
            | (none, su) => (false, su)
          else (false, s1)
        let s3 := update_order_status order_id OrderStatus.cancelled none rs.2
        (⟨true, rs.1, none⟩, s3)

/-- Shallow embedding of `order_manager.retry_order_delivery`
(`order_manager.py`, lines 412-443): return success without reprocessing
when the order is already completed, otherwise delegate to
`process_order`. -/
def retry_order_delivery (cfg : Config) (dh : Option DeliveryFn) (order_id : Nat)
    (s : OMState) : ProcessResult × OMState :=
  match s.orders order_id with
  | none => (⟨false, false, some "Order not found", false, false⟩, s)
  | some order =>
    if order.status = OrderStatus.completed then
      (⟨true, false, none, false, false⟩, s)
    else
      process_order cfg dh order_id s

/-! ### Stock manager (`stock_manager.py`) -/

/-- ASCII whitespace recognised by Python `str.strip()`. -/
def isPySpace (c : Char) : Bool :=
  c == ' ' || c == '\t' || c == '\n' || c == '\r' || c == '\x0b' || c == '\x0c'

/-- Model of Python `str.strip()` on a character list. -/
def pyStrip (cs : List Char) : List Char :=
  ((cs.dropWhile isPySpace).reverse.dropWhile isPySpace).reverse

/-- Shallow embedding of `stock_manager.validate_stock_code`
(`stock_manager.py`, lines 592-613): strip, then reject empty, shorter than
5 or longer than 500 characters. -/
def validate_stock_code (code : String) : ValidationResult :=
  let c := pyStrip code.data
  if c.isEmpty then ⟨false, some "Empty code"⟩
  else if c.length < 5 then ⟨false, some "Code too short (min 5 characters)"⟩
  else if 500 < c.length then ⟨false, some "Code too long (max 500 characters)"⟩
  else ⟨true, none⟩

/-- The `StockEncryption` cipher state: `fernet` is `none` when the cipher
failed to initialise; otherwise it holds the encryption primitive, which
returns `none` when encrypting raises. -/
structure StockEncryption where
  fernet : Option (List Char → Option (List Char))

/-- Shallow embedding of `stock_manager.StockEncryption.encrypt`
(`stock_manager.py`, lines 50-60): return the plaintext unchanged when the
cipher is missing or encryption is disabled, and also when encrypting
raises (availability over confidentiality). -/
def StockEncryption.encrypt (cfg : Config) (e : StockEncryption) (code : List Char) : List Char :=
  match e.fernet, cfg.ENCRYPT_STOCK_CODES with
  | some f, true =>
    match f code with
    | some ct => ct
    | none => code
  | _, _ => code

/-- Modelled from the spec: `database.add_stock_code` is absent from the
given sources.  It inserts an available, unreserved stock row at the next
autoincrement id and returns that id. -/
def add_stock_code (code : List Char) (code_type : String) (added_by : Option Nat)
    (is_encrypted : Bool) (s : OMState) : Nat × OMState :=
  let sid := s.next_stock_id
  (sid,
    { s with
      stock := s.stock ++ [(sid, ⟨code, code_type, true, none, is_encrypted, added_by, none⟩)]
      next_stock_id := sid + 1 })

/-- Result of `stock_manager.add_single_code`. -/
structure AddCodeResult where
  success : Bool
  stock_id : Option Nat
  error : Option String
deriving DecidableEq, Repr

/-- Shallow embedding of `stock_manager.add_single_code`
(`stock_manager.py`, lines 82-141): strip the payload, reject it when empty
or shorter than 5 characters, encrypt it when encryption is enabled
(setting `is_encrypted` from the configuration flag), and insert the row. -/
def add_single_code (cfg : Config) (enc : StockEncryption) (code : String)
    (code_type : String) (added_by : Option Nat) (s : OMState) : AddCodeResult × OMState :=
  let c := pyStrip code.data
  if c.isEmpty then (⟨false, none, some "Empty code"⟩, s)
  else if c.length < 5 then (⟨false, none, some "Code too short"⟩, s)
  else
    let stored := if cfg.ENCRYPT_STOCK_CODES then StockEncryption.encrypt cfg enc c else c
    let is_encrypted := cfg.ENCRYPT_STOCK_CODES
    let (stock_id, s1) := add_stock_code stored code_type added_by is_encrypted s
    if stock_id ≠ 0 then (⟨true, some stock_id, none⟩, s1)
    else (⟨false, none, some "Failed to add code to database"⟩, s1)

end Orders

/-! ## Theorems -/

open Orders

/-- C8: for every order whose status is already Completed, `process_order`
returns success with `delivered` true immediately and leaves the whole
database state (order, stock, balances) unchanged; the result does not
depend on the delivery handler, which is therefore never invoked. -/
theorem process_order_completed_noop (cfg : Config) (dh : Option DeliveryFn)
    (order_id : Nat) (s : OMState) (order : OrderRow)
    (hord : s.orders order_id = some order)
    (hst : order.status = OrderStatus.completed) :
    process_order cfg dh order_id s = (⟨true, true, none, false, false⟩, s) := by
  unfold process_order
  rw [hord]
  simp [hst]

/-- Concrete configuration used by the witnesses: packages as in
`config.PACKAGE_CONFIG`, every feature flag enabled. -/
def wCfg : Config where
  MAX_CODES_PER_ORDER := 50
  AUTO_DELIVERY_ENABLED := true
  ENABLE_ORDER_CANCELLATION := true
  ENABLE_REFUND := true
  ENCRYPT_STOCK_CODES := true
  packages := fun k =>
    if k = "1_code" then some (1, 15000)
    else if k = "5_codes" then some (5, 70000)
    else none

/-- A stock row available for reservation, used by the witnesses. -/
def wItem : StockItem :=
  ⟨['c', 'o', 'd', 'e', '1'], "redfinger", true, none, false, some 9, none⟩

/-- A completed order row, used by the witness of the C8 theorem. -/
def wCompletedOrder : OrderRow :=
  ⟨"ORD-1-1", 1, "1_code", 1, 15000, "balance", OrderStatus.completed, some "delivered"⟩

/-- A database state holding the single completed order `1`, used by the
witnesses. -/
def wCompletedState : OMState where
  balances := fun _ => 30000
  orders := fun i => if i = 1 then some wCompletedOrder else none
  stock := [(1, wItem)]
  next_order_id := 2
  next_stock_id := 2
  log := []

theorem process_order_completed_noop_witness :
    wCompletedState.orders 1 = some wCompletedOrder ∧
    wCompletedOrder.status = OrderStatus.completed ∧
    process_order wCfg none 1 wCompletedState =
      (⟨true, true, none, false, false⟩, wCompletedState) :=
  ⟨rfl, rfl, process_order_completed_noop wCfg none 1 wCompletedState wCompletedOrder rfl rfl⟩

/-! Frame lemmas for the order-manager state primitives, shared by the
claim theorems below. -/

theorem update_order_status_orders_self (oid : Nat) (st : OrderStatus) (ds : Option String)
    (s : OMState) :
    (update_order_status oid st ds s).orders oid =
      (s.orders oid).map (fun o =>
        { o with status := st, delivery_status := ds.elim o.delivery_status some }) := by
  unfold update_order_status
  dsimp only
  rw [if_pos rfl]

theorem update_order_status_stock (oid : Nat) (st : OrderStatus) (ds : Option String)
    (s : OMState) : (update_order_status oid st ds s).stock = s.stock := rfl

theorem update_order_status_balances (oid : Nat) (st : OrderStatus) (ds : Option String)
    (s : OMState) : (update_order_status oid st ds s).balances = s.balances := rfl

theorem update_order_status_log (oid : Nat) (st : OrderStatus) (ds : Option String)
    (s : OMState) : (update_order_status oid st ds s).log = s.log := rfl

theorem mark_codes_as_used_orders (ids : List Nat) (u : Nat) (s : OMState) :
    (mark_codes_as_used ids u s).orders = s.orders := rfl

theorem mark_codes_as_used_log (ids : List Nat) (u : Nat) (s : OMState) :
    (mark_codes_as_used ids u s).log = s.log := rfl

theorem logWarning_orders (m : String) (s : OMState) : (logWarning m s).orders = s.orders := rfl

theorem logWarning_log (m : String) (s : OMState) : (logWarning m s).log = s.log ++ [m] := rfl

theorem logWarning_stock (m : String) (s : OMState) : (logWarning m s).stock = s.stock := rfl

theorem logWarning_balances (m : String) (s : OMState) :
    (logWarning m s).balances = s.balances := rfl

/-- C6: for every existing non-completed order with reserved codes whose
delivery invocation fails (the handler returns `success=False` or raises),
`process_order` reports the failure (success false, error set, retryable),
sets the order to Pending with `delivery_status=delivery_failed`, and
leaves the stock table (hence every reservation) and all balances
unchanged. -/
theorem process_order_delivery_failure_frame (cfg : Config) (f : DeliveryFn)
    (order_id : Nat) (s : OMState) (order : OrderRow)
    (hord : s.orders order_id = some order)
    (hst : order.status ≠ OrderStatus.completed)
    (hauto : cfg.AUTO_DELIVERY_ENABLED = true)
    (hcodes : (get_reserved_codes order_id s).isEmpty = false)
    (hfail : f order.user_id order.order_number (get_reserved_codes order_id s) =
        DeliveryOutcome.ok false ∨
      f order.user_id order.order_number (get_reserved_codes order_id s) =
        DeliveryOutcome.raises) :
    (process_order cfg (some f) order_id s).1 =
      ⟨false, false, some "Delivery failed", false, true⟩ ∧
    (process_order cfg (some f) order_id s).2.orders order_id =
      some { order with status := OrderStatus.pending, delivery_status := some "delivery_failed" } ∧
    (process_order cfg (some f) order_id s).2.stock = s.stock ∧
    (process_order cfg (some f) order_id s).2.balances = s.balances := by
  have h0 : (if (get_reserved_codes order_id s).length = order.code_quantity then s
      else logWarning "Code quantity mismatch" s).orders order_id = some order := by
    split <;> exact hord
  rcases hfail with hfail | hfail <;>
  · have key : process_order cfg (some f) order_id s =
        (⟨false, false, some "Delivery failed", false, true⟩,
          update_order_status order_id OrderStatus.pending (some "delivery_failed")
            (if (get_reserved_codes order_id s).length = order.code_quantity then s
             else logWarning "Code quantity mismatch" s)) := by
      unfold process_order
      rw [hord]
      simp only [if_neg hst, hcodes, Bool.false_eq_true, if_false, hauto, hfail, ite_not]
    rw [key]
    refine ⟨rfl, ?_, ?_, ?_⟩
    · rw [update_order_status_orders_self, h0]
      rfl
    · rw [update_order_status_stock]
      split <;> rfl
    · rw [update_order_status_balances]
      split <;> rfl

/-- A pending order row for user 1, quantity 1, used by the witnesses. -/
def wPendingOrder : OrderRow :=
  ⟨"ORD-1-1", 1, "1_code", 1, 15000, "balance", OrderStatus.pending, none⟩

/-- A stock row reserved for order 1, used by the witnesses. -/
def wReservedItem : StockItem :=
  ⟨['c', 'o', 'd', 'e', '1'], "redfinger", true, some 1, false, some 9, none⟩

/-- A database state holding the single pending order `1` with one reserved
code, used by the witnesses. -/
def wPendingState : OMState where
  balances := fun _ => 0
  orders := fun i => if i = 1 then some wPendingOrder else none
  stock := [(1, wReservedItem)]
  next_order_id := 2
  next_stock_id := 2
  log := []

/-- A delivery handler that always reports failure. -/
def wFailDeliver : DeliveryFn := fun _ _ _ => DeliveryOutcome.ok false

theorem process_order_delivery_failure_frame_witness :
    wPendingState.orders 1 = some wPendingOrder ∧
    wPendingOrder.status ≠ OrderStatus.completed ∧
    wCfg.AUTO_DELIVERY_ENABLED = true ∧
    (get_reserved_codes 1 wPendingState).isEmpty = false ∧
    (process_order wCfg (some wFailDeliver) 1 wPendingState).1 =
      ⟨false, false, some "Delivery failed", false, true⟩ ∧
    (process_order wCfg (some wFailDeliver) 1 wPendingState).2.stock = wPendingState.stock ∧
    (process_order wCfg (some wFailDeliver) 1 wPendingState).2.balances =
      wPendingState.balances := by
  have T := process_order_delivery_failure_frame wCfg wFailDeliver 1 wPendingState
    wPendingOrder rfl (by decide) rfl rfl (Or.inl rfl)
  exact ⟨rfl, by decide, rfl, rfl, T.1, T.2.2.1, T.2.2.2⟩

/-- A database state holding the single pending order `1` (quantity 1)
with no reserved codes at all, used for the C5 counterexample. -/
def c5State : OMState where
  balances := fun _ => 0
  orders := fun i => if i = 1 then some wPendingOrder else none
  stock := []
  next_order_id := 2
  next_stock_id := 1
  log := []

/-- C5 counterexample: the claim says a reserved-code count that differs
from `code_quantity` — including zero reserved codes — is treated as a
non-fatal warning, with delivery proceeding.  On the concrete pending
order `1` (quantity 1) with zero reserved codes, `process_order` instead
marks the order Failed with `no_codes`, returns an error, and logs no
warning. -/
theorem process_order_zero_codes_fatal :
    ((process_order wCfg (some wFailDeliver) 1 c5State).2.orders 1).map OrderRow.status =
      some OrderStatus.failed ∧
    (process_order wCfg (some wFailDeliver) 1 c5State).1.success = false ∧
    (process_order wCfg (some wFailDeliver) 1 c5State).1.error =
      some "No codes reserved for this order" ∧
    (process_order wCfg (some wFailDeliver) 1 c5State).2.log = [] :=
  ⟨rfl, rfl, rfl, rfl⟩

/-- C5 (amended): for every existing non-completed order whose nonzero
count of reserved codes differs from `code_quantity`, `process_order` logs
the mismatch warning and proceeds to deliver exactly the reserved codes,
treating the mismatch as non-fatal: a successful delivery completes the
order, a failure leaves it Pending and retryable.  (With zero reserved
codes the order is instead marked Failed with `no_codes`, as the
counterexample shows.) -/
theorem process_order_mismatch_nonfatal (cfg : Config) (f : DeliveryFn)
    (order_id : Nat) (s : OMState) (order : OrderRow)
    (hord : s.orders order_id = some order)
    (hst : order.status ≠ OrderStatus.completed)
    (hauto : cfg.AUTO_DELIVERY_ENABLED = true)
    (hcodes : (get_reserved_codes order_id s).isEmpty = false)
    (hmis : (get_reserved_codes order_id s).length ≠ order.code_quantity) :
    (process_order cfg (some f) order_id s).2.log = s.log ++ ["Code quantity mismatch"] ∧
    (f order.user_id order.order_number (get_reserved_codes order_id s) =
        DeliveryOutcome.ok true →
      (process_order cfg (some f) order_id s).1 = ⟨true, true, none, false, false⟩ ∧
      ((process_order cfg (some f) order_id s).2.orders order_id).map OrderRow.status =
        some OrderStatus.completed) ∧
    (f order.user_id order.order_number (get_reserved_codes order_id s) =
          DeliveryOutcome.ok false ∨
      f order.user_id order.order_number (get_reserved_codes order_id s) =
          DeliveryOutcome.raises →
      (process_order cfg (some f) order_id s).1 =
        ⟨false, false, some "Delivery failed", false, true⟩ ∧
      ((process_order cfg (some f) order_id s).2.orders order_id).map OrderRow.status =
        some OrderStatus.pending) := by
  cases houtcome : f order.user_id order.order_number (get_reserved_codes order_id s) with
  | ok b =>
    cases b with
    | true =>
      have key : process_order cfg (some f) order_id s =
          (⟨true, true, none, false, false⟩,
            update_order_status order_id OrderStatus.completed (some "delivered")
              (mark_codes_as_used ((get_reserved_codes order_id s).map Prod.fst) order.user_id
                (logWarning "Code quantity mismatch" s))) := by
        unfold process_order
        rw [hord]
        simp only [if_neg hst, hcodes, Bool.false_eq_true, if_false, hauto, houtcome, hmis,
          ite_not, if_true, ite_false, ite_true]
      rw [key]
      refine ⟨rfl, fun _ => ⟨rfl, ?_⟩, fun h => ?_⟩
      · rw [update_order_status_orders_self]
        have : (mark_codes_as_used ((get_reserved_codes order_id s).map Prod.fst) order.user_id
            (logWarning "Code quantity mismatch" s)).orders order_id = some order := hord
        rw [this]
        rfl
      · rcases h with h | h <;> exact absurd h (by decide)
    | false =>
      have key : process_order cfg (some f) order_id s =
          (⟨false, false, some "Delivery failed", false, true⟩,
            update_order_status order_id OrderStatus.pending (some "delivery_failed")
              (logWarning "Code quantity mismatch" s)) := by
        unfold process_order
        rw [hord]
        simp only [if_neg hst, hcodes, Bool.false_eq_true, if_false, hauto, houtcome, hmis,
          ite_not, if_true, ite_false, ite_true]
      rw [key]
      refine ⟨rfl, fun h => absurd h (by decide), fun _ => ⟨rfl, ?_⟩⟩
      · rw [update_order_status_orders_self]
        have : (logWarning "Code quantity mismatch" s).orders order_id = some order := hord
        rw [this]
        rfl
  | raises =>
    have key : process_order cfg (some f) order_id s =
        (⟨false, false, some "Delivery failed", false, true⟩,
          update_order_status order_id OrderStatus.pending (some "delivery_failed")
            (logWarning "Code quantity mismatch" s)) := by
      unfold process_order
      rw [hord]
      simp only [if_neg hst, hcodes, Bool.false_eq_true, if_false, hauto, houtcome, hmis,
        ite_not, if_true, ite_false, ite_true]
    rw [key]
    refine ⟨rfl, fun h => absurd h (by decide), fun _ => ⟨rfl, ?_⟩⟩
    · rw [update_order_status_orders_self]
      have : (logWarning "Code quantity mismatch" s).orders order_id = some order := hord
      rw [this]
      rfl

/-- A pending order for user 1 expecting two codes of which only one is
reserved, used by the C5 witness. -/
def c5MismatchOrder : OrderRow :=
  ⟨"ORD-1-1", 1, "5_codes", 2, 70000, "balance", OrderStatus.pending, none⟩

/-- A database state with order `1` expecting 2 codes but only 1 reserved,
used by the C5 witness. -/
def c5MismatchState : OMState where
  balances := fun _ => 0
  orders := fun i => if i = 1 then some c5MismatchOrder else none
  stock := [(1, wReservedItem)]
  next_order_id := 2
  next_stock_id := 2
  log := []

/-- A delivery handler that always reports success. -/
def wOkDeliver : DeliveryFn := fun _ _ _ => DeliveryOutcome.ok true

theorem process_order_mismatch_nonfatal_witness :
    c5MismatchState.orders 1 = some c5MismatchOrder ∧
    c5MismatchOrder.status ≠ OrderStatus.completed ∧
    (get_reserved_codes 1 c5MismatchState).isEmpty = false ∧
    (get_reserved_codes 1 c5MismatchState).length ≠ c5MismatchOrder.code_quantity ∧
    (process_order wCfg (some wOkDeliver) 1 c5MismatchState).2.log =
      c5MismatchState.log ++ ["Code quantity mismatch"] ∧
    (process_order wCfg (some wOkDeliver) 1 c5MismatchState).1 =
      ⟨true, true, none, false, false⟩ := by
  have T := process_order_mismatch_nonfatal wCfg wOkDeliver 1 c5MismatchState c5MismatchOrder
    rfl (by decide) rfl rfl (by decide)
  exact ⟨rfl, by decide, rfl, by decide, T.1, (T.2.1 rfl).1⟩

/-- A cancelled order row, used by the C3 counterexample. -/
def c3CancelledOrder : OrderRow :=
  ⟨"ORD-1-1", 1, "1_code", 1, 15000, "balance", OrderStatus.cancelled, none⟩

/-- A database state holding the single cancelled order `1` whose
reservation was already released (no reserved codes), as `cancel_order`
leaves it. -/
def c3State : OMState where
  balances := fun _ => 0
  orders := fun i => if i = 1 then some c3CancelledOrder else none
  stock := []
  next_order_id := 2
  next_stock_id := 1
  log := []

/-- C3 counterexample: the claim says no operation changes the status of a
Cancelled order, yet invoking `process_order` on the concrete cancelled
order `1` (whose reservation `cancel_order` had released) re-marks it
Failed with `no_codes`. -/
theorem cancelled_order_not_immutable :
    c3State.orders 1 = some c3CancelledOrder ∧
    c3CancelledOrder.status = OrderStatus.cancelled ∧
    ((process_order wCfg none 1 c3State).2.orders 1).map OrderRow.status =
      some OrderStatus.failed :=
  ⟨rfl, rfl, rfl⟩

/-- C3 (amended): once an order is Completed, none of `process_order`,
`cancel_order` and `retry_order_delivery` changes the database state (its
status and its stock reservations included); once it is Cancelled,
`cancel_order` refuses and changes nothing, but `process_order` (and hence
`retry_order_delivery`) may still change its status, as the counterexample
shows. -/
theorem terminal_completed_immutable (cfg : Config) (dh : Option DeliveryFn)
    (order_id : Nat) (refund : Bool) (s : OMState) (order : OrderRow)
    (hord : s.orders order_id = some order) :
    (order.status = OrderStatus.completed →
      process_order cfg dh order_id s = (⟨true, true, none, false, false⟩, s) ∧
      retry_order_delivery cfg dh order_id s = (⟨true, false, none, false, false⟩, s) ∧
      (cancel_order cfg order_id refund s).2 = s ∧
      (cancel_order cfg order_id refund s).1.success = false) ∧
    (order.status = OrderStatus.cancelled →
      (cancel_order cfg order_id refund s).2 = s ∧
      (cancel_order cfg order_id refund s).1.success = false) := by
  constructor
  · intro hst
    refine ⟨?_, ?_, ?_, ?_⟩
    · unfold process_order
      rw [hord]
      simp [hst]
    · unfold retry_order_delivery
      rw [hord]
      simp [hst]
    · unfold cancel_order
      by_cases hc : cfg.ENABLE_ORDER_CANCELLATION = false
      · simp [hc]
      · simp [hc, hord, hst]
    · unfold cancel_order
      by_cases hc : cfg.ENABLE_ORDER_CANCELLATION = false
      · simp [hc]
      · simp [hc, hord, hst]
  · intro hst
    constructor
    · unfold cancel_order
      by_cases hc : cfg.ENABLE_ORDER_CANCELLATION = false
      · simp [hc]
      · simp [hc, hord, hst]
    · unfold cancel_order
      by_cases hc : cfg.ENABLE_ORDER_CANCELLATION = false
      · simp [hc]
      · simp [hc, hord, hst]

theorem terminal_completed_immutable_witness :
    wCompletedState.orders 1 = some wCompletedOrder ∧
    process_order wCfg none 1 wCompletedState =
      (⟨true, true, none, false, false⟩, wCompletedState) ∧
    retry_order_delivery wCfg none 1 wCompletedState =
      (⟨true, false, none, false, false⟩, wCompletedState) ∧
    (cancel_order wCfg 1 true wCompletedState).2 = wCompletedState := by
  have T := terminal_completed_immutable wCfg none 1 true wCompletedState wCompletedOrder rfl
  exact ⟨rfl, (T.1 rfl).1, (T.1 rfl).2.1, (T.1 rfl).2.2.1⟩

theorem reserve_stock_codes_fst_length (oid count : Nat) (s : OMState) :
    (reserve_stock_codes oid count s).1.length = min count (get_available_stock_count s) := by
  unfold reserve_stock_codes get_available_stock_count
  simp [List.length_take]

theorem refund_balance_orders (u amt : Nat) (s : OMState) :
    (refund_balance u amt s).2.orders = s.orders := by
  unfold refund_balance
  split <;> rfl

theorem refund_balance_balances_self (u amt : Nat) (s : OMState) :
    (refund_balance u amt s).2.balances u =
      if amt = 0 then s.balances u else s.balances u + amt := by
  unfold refund_balance
  split <;> simp_all

/-- C2: whenever the balance debit of `create_new_order` has succeeded
(taking the account from state `s0` to `s1`) but fewer codes are available
than the package quantity — so the reservation returns a short list — the
post-debit segment `create_order_after_debit` (which `create_new_order`
runs after a successful `deduct_balance`) returns an error with
`success=false`, marks the order Failed with `stock_unavailable`, and
refunds the debit: the account balance after the call equals its pre-debit
value. -/
theorem create_order_compensates_stock_shortfall (u : Nat) (pkg pm : String)
    (q p : Nat) (s0 s1 : OMState)
    (hdebit : deduct_balance u p s0 = (true, s1))
    (hoid : s1.next_order_id ≠ 0)
    (hshort : get_available_stock_count s1 < q) :
    (create_order_after_debit u pkg pm q p s1).1.success = false ∧
    (create_order_after_debit u pkg pm q p s1).1.error ≠ none ∧
    ((create_order_after_debit u pkg pm q p s1).2.orders s1.next_order_id).map
      OrderRow.status = some OrderStatus.failed ∧
    ((create_order_after_debit u pkg pm q p s1).2.orders s1.next_order_id).bind
      OrderRow.delivery_status = some "stock_unavailable" ∧
    (create_order_after_debit u pkg pm q p s1).2.balances u = s0.balances u := by
  -- dissect the successful debit
  unfold deduct_balance at hdebit
  by_cases hlt : s0.balances u < p
  · rw [if_pos hlt] at hdebit
    exact absurd (congrArg Prod.fst hdebit) (by simp)
  rw [if_neg hlt] at hdebit
  have hs1 : s1 = { s0 with
      balances := fun v => if v = u then s0.balances u - p else s0.balances v } :=
    (congrArg Prod.snd hdebit).symm
  have hbal1 : s1.balances u = s0.balances u - p := by
    rw [hs1]
    simp
  -- the reservation comes back short
  have hshortfall : ∀ s2 : OMState, s2.stock = s1.stock →
      (reserve_stock_codes s1.next_order_id q s2).1.length < q := by
    intro s2 hstk
    rw [reserve_stock_codes_fst_length]
    have : get_available_stock_count s2 = get_available_stock_count s1 := by
      unfold get_available_stock_count
      rw [hstk]
    rw [this]
    exact lt_of_le_of_lt (Nat.min_le_right q _) hshort
  -- evaluate the segment
  unfold create_order_after_debit create_order
  dsimp only
  rw [if_neg hoid]
  split
  rotate_left
  · next h => exact absurd (hshortfall _ rfl) h
  refine ⟨rfl, by simp, ?_, ?_, ?_⟩
  · rw [update_order_status_orders_self]
    have hro : ((refund_balance u p (reserve_stock_codes s1.next_order_id q
        { s1 with
          orders := fun i => if i = s1.next_order_id then
            some ⟨"ORD-" ++ toString u ++ "-" ++ toString s1.next_order_id, u, pkg, q, p, pm,
              OrderStatus.pending, none⟩ else s1.orders i
          next_order_id := s1.next_order_id + 1 }).2).2).orders s1.next_order_id =
        some ⟨"ORD-" ++ toString u ++ "-" ++ toString s1.next_order_id, u, pkg, q, p, pm,
          OrderStatus.pending, none⟩ := by
      rw [refund_balance_orders]
      simp [reserve_stock_codes]
    rw [hro]
    rfl
  · rw [update_order_status_orders_self]
    have hro : ((refund_balance u p (reserve_stock_codes s1.next_order_id q
        { s1 with
          orders := fun i => if i = s1.next_order_id then
            some ⟨"ORD-" ++ toString u ++ "-" ++ toString s1.next_order_id, u, pkg, q, p, pm,
              OrderStatus.pending, none⟩ else s1.orders i
          next_order_id := s1.next_order_id + 1 }).2).2).orders s1.next_order_id =
        some ⟨"ORD-" ++ toString u ++ "-" ++ toString s1.next_order_id, u, pkg, q, p, pm,
          OrderStatus.pending, none⟩ := by
      rw [refund_balance_orders]
      simp [reserve_stock_codes]
    rw [hro]
    rfl
  · rw [update_order_status_balances, refund_balance_balances_self]
    dsimp only [reserve_stock_codes]
    rw [hbal1]
    by_cases hp : p = 0
    · simp [hp]
    · rw [if_neg hp]
      exact Nat.sub_add_cancel (Nat.le_of_not_lt hlt)

/-- The pre-debit state of the C2 witness: balance 100000, three available
codes in stock. -/
def c2BaseState : OMState where
  balances := fun _ => 100000
  orders := fun _ => none
  stock := [(1, wItem), (2, wItem), (3, wItem)]
  next_order_id := 1
  next_stock_id := 4
  log := []

/-- The state of the C2 witness after the 70000 debit for a 5-code
package. -/
def c2DebitedState : OMState := (deduct_balance 1 70000 c2BaseState).2

theorem create_order_compensates_stock_shortfall_witness :
    deduct_balance 1 70000 c2BaseState = (true, c2DebitedState) ∧
    c2DebitedState.next_order_id ≠ 0 ∧
    get_available_stock_count c2DebitedState < 5 ∧
    (create_order_after_debit 1 "5_codes" "balance" 5 70000 c2DebitedState).1.success = false ∧
    ((create_order_after_debit 1 "5_codes" "balance" 5 70000 c2DebitedState).2.orders
      c2DebitedState.next_order_id).map OrderRow.status = some OrderStatus.failed ∧
    (create_order_after_debit 1 "5_codes" "balance" 5 70000 c2DebitedState).2.balances 1 =
      c2BaseState.balances 1 := by
  have T := create_order_compensates_stock_shortfall 1 "5_codes" "balance" 5 70000
    c2BaseState c2DebitedState rfl (by decide) (by decide)
  exact ⟨rfl, by decide, by decide, T.1, T.2.2.1, T.2.2.2.2⟩

theorem refund_balance_stock (u amt : Nat) (s : OMState) :
    (refund_balance u amt s).2.stock = s.stock := by
  unfold refund_balance
  split <;> rfl

/-- C9: when `create_order_after_debit` (the post-debit segment of
`create_new_order`) fails because fewer codes are available than requested,
the order is marked Failed, the reservation covers exactly the codes that
were available (a short list), and every one of those codes is still
reserved for the now-Failed order in the final state: the rollback refunds
the balance but performs no release of the partial reservation. -/
theorem shortfall_leaves_partial_reservation (u : Nat) (pkg pm : String)
    (q p : Nat) (s1 : OMState)
    (hoid : s1.next_order_id ≠ 0)
    (hshort : get_available_stock_count s1 < q) :
    ((create_order_after_debit u pkg pm q p s1).2.orders s1.next_order_id).map
      OrderRow.status = some OrderStatus.failed ∧
    (reserve_stock_codes s1.next_order_id q ((create_order u pkg q p pm s1).2)).1.length =
      get_available_stock_count s1 ∧
    ∀ pr ∈ (create_order_after_debit u pkg pm q p s1).2.stock,
      pr.1 ∈ (reserve_stock_codes s1.next_order_id q ((create_order u pkg q p pm s1).2)).1 →
      pr.2.reserved_for_order = some s1.next_order_id := by
  have hshortfall : ∀ s2 : OMState, s2.stock = s1.stock →
      (reserve_stock_codes s1.next_order_id q s2).1.length < q := by
    intro s2 hstk
    rw [reserve_stock_codes_fst_length]
    have : get_available_stock_count s2 = get_available_stock_count s1 := by
      unfold get_available_stock_count
      rw [hstk]
    rw [this]
    exact lt_of_le_of_lt (Nat.min_le_right q _) hshort
  unfold create_order_after_debit create_order
  dsimp only
  rw [if_neg hoid]
  split
  rotate_left
  · next h => exact absurd (hshortfall _ rfl) h
  refine ⟨?_, ?_, ?_⟩
  · rw [update_order_status_orders_self]
    have hro : ((refund_balance u p (reserve_stock_codes s1.next_order_id q
        { s1 with
          orders := fun i => if i = s1.next_order_id then
            some ⟨"ORD-" ++ toString u ++ "-" ++ toString s1.next_order_id, u, pkg, q, p, pm,
              OrderStatus.pending, none⟩ else s1.orders i
          next_order_id := s1.next_order_id + 1 }).2).2).orders s1.next_order_id =
        some ⟨"ORD-" ++ toString u ++ "-" ++ toString s1.next_order_id, u, pkg, q, p, pm,
          OrderStatus.pending, none⟩ := by
      rw [refund_balance_orders]
      simp [reserve_stock_codes]
    rw [hro]
    rfl
  · rw [reserve_stock_codes_fst_length]
    exact Nat.min_eq_right (Nat.le_of_lt hshort)
  · intro pr hpr hmem
    rw [update_order_status_stock, refund_balance_stock] at hpr
    simp only [reserve_stock_codes] at hpr hmem
    rcases List.mem_map.mp hpr with ⟨a, ha, hpr2⟩
    by_cases hin : a.1 ∈ (((({ s1 with
        orders := fun i => if i = s1.next_order_id then
          some ⟨"ORD-" ++ toString u ++ "-" ++ toString s1.next_order_id, u, pkg, q, p, pm,
            OrderStatus.pending, none⟩ else s1.orders i
        next_order_id := s1.next_order_id + 1 } : OMState).stock.filter
          (fun pr2 => stockAvailable pr2.2)).map Prod.fst).take q)
    · rw [if_pos hin] at hpr2
      rw [← hpr2]
    · rw [if_neg hin] at hpr2
      rw [← hpr2] at hmem
      exact absurd hmem hin

/-- The post-debit state of the C9 witness: only one available code while
two are requested. -/
def c9State : OMState where
  balances := fun _ => 30000
  orders := fun _ => none
  stock := [(1, wItem)]
  next_order_id := 1
  next_stock_id := 2
  log := []

theorem shortfall_leaves_partial_reservation_witness :
    c9State.next_order_id ≠ 0 ∧
    get_available_stock_count c9State < 2 ∧
    ((create_order_after_debit 1 "5_codes" "balance" 2 70000 c9State).2.orders 1).map
      OrderRow.status = some OrderStatus.failed ∧
    (reserve_stock_codes 1 2 ((create_order 1 "5_codes" 2 70000 "balance" c9State).2)).1.length =
      get_available_stock_count c9State ∧
    (1, { wItem with reserved_for_order := some 1 }) ∈
      (create_order_after_debit 1 "5_codes" "balance" 2 70000 c9State).2.stock := by
  have T := shortfall_leaves_partial_reservation 1 "5_codes" "balance" 2 70000 c9State
    (by decide) (by decide)
  exact ⟨by decide, by decide, T.1, T.2.1, by decide⟩

/-- A payload of 501 identical characters, used by the C7
counterexample. -/
def c7LongCode : String := String.mk (List.replicate 501 'a')

/-- An empty database state, used by the stock witnesses. -/
def c7EmptyState : OMState where
  balances := fun _ => 0
  orders := fun _ => none
  stock := []
  next_order_id := 1
  next_stock_id := 1
  log := []

/-- An encryption handle whose cipher failed to initialise. -/
def wNoEncrypt : StockEncryption := ⟨none⟩

/-- The witness configuration with stock-code encryption disabled. -/
def wPlainCfg : Config := { wCfg with ENCRYPT_STOCK_CODES := false }

set_option maxRecDepth 40000 in
/-- C7 counterexample: the claim says payloads longer than 500 characters
are rejected and no stock row is inserted, but `add_single_code` checks
only the 5-character minimum: on the concrete 501-character payload it
reports success and inserts a row (while `validate_stock_code`, which it
never calls, would flag the same payload). -/
theorem add_code_accepts_overlong :
    500 < (pyStrip c7LongCode.data).length ∧
    (validate_stock_code c7LongCode).valid = false ∧
    (add_single_code wPlainCfg wNoEncrypt c7LongCode "redfinger" (some 9)
      c7EmptyState).1.success = true ∧
    (add_single_code wPlainCfg wNoEncrypt c7LongCode "redfinger" (some 9)
      c7EmptyState).2.stock.length = 1 :=
  ⟨by decide, by decide, rfl, rfl⟩

/-- C7 (amended): `add_single_code` fails with an invalid-code error
exactly for payloads whose trimmed form is empty or shorter than 5
characters, and inserts no stock row in that case; the 500-character upper
bound appears only in `validate_stock_code`, which `add_single_code` does
not invoke, so longer payloads are accepted (see the counterexample). -/
theorem add_code_rejects_short_only (cfg : Config) (enc : StockEncryption) (code : String)
    (code_type : String) (added_by : Option Nat) (s : OMState) :
    ((pyStrip code.data).length < 5 →
      (add_single_code cfg enc code code_type added_by s).1.success = false ∧
      (add_single_code cfg enc code code_type added_by s).1.error ≠ none ∧
      (add_single_code cfg enc code code_type added_by s).2 = s) ∧
    (500 < (pyStrip code.data).length → (validate_stock_code code).valid = false) := by
  constructor
  · intro h
    unfold add_single_code
    cases hemp : (pyStrip code.data).isEmpty with
    | true => simp [hemp]
    | false => simp [hemp, h]
  · intro h
    unfold validate_stock_code
    have hne : (pyStrip code.data).isEmpty = false := by
      rcases hl : pyStrip code.data with _ | ⟨c, cs⟩
      · rw [hl] at h
        simp at h
      · rfl
    have h5 : ¬ (pyStrip code.data).length < 5 := by
      omega
    simp only [hne, Bool.false_eq_true, if_false, if_neg h5, if_pos h]

theorem add_code_rejects_short_only_witness :
    (pyStrip ("ab".data)).length < 5 ∧
    (add_single_code wPlainCfg wNoEncrypt "ab" "redfinger" none c7EmptyState).1.success = false ∧
    (add_single_code wPlainCfg wNoEncrypt "ab" "redfinger" none c7EmptyState).1.error ≠ none ∧
    (add_single_code wPlainCfg wNoEncrypt "ab" "redfinger" none c7EmptyState).2 =
      c7EmptyState := by
  have T := add_code_rejects_short_only wPlainCfg wNoEncrypt "ab" "redfinger" none c7EmptyState
  exact ⟨by decide, (T.1 (by decide)).1, (T.1 (by decide)).2.1, (T.1 (by decide)).2.2⟩

/-- C10: with `ENCRYPT_STOCK_CODES` enabled, every accepted payload is
stored with `is_encrypted = true` even when encryption falls back to
returning the plaintext (missing cipher or a raising `encrypt`): the flag
reflects the configuration setting, not whether encryption succeeded —
indeed the inserted row then holds the plaintext trimmed payload under the
`true` flag. -/
theorem encrypted_flag_reflects_config (cfg : Config) (enc : StockEncryption) (code : String)
    (code_type : String) (added_by : Option Nat) (s : OMState)
    (hcfg : cfg.ENCRYPT_STOCK_CODES = true)
    (h5 : 5 ≤ (pyStrip code.data).length)
    (hfb : enc.fernet = none ∨ ∃ f, enc.fernet = some f ∧ f (pyStrip code.data) = none)
    (hsid : s.next_stock_id ≠ 0) :
    (add_single_code cfg enc code code_type added_by s).1.success = true ∧
    (add_single_code cfg enc code code_type added_by s).2.stock =
      s.stock ++ [(s.next_stock_id,
        ⟨pyStrip code.data, code_type, true, none, true, added_by, none⟩)] := by
  have hne : (pyStrip code.data).isEmpty = false := by
    rcases hl : pyStrip code.data with _ | ⟨c, cs⟩
    · rw [hl] at h5
      simp at h5
    · rfl
  have hfc : StockEncryption.encrypt cfg enc (pyStrip code.data) = pyStrip code.data := by
    rcases hfb with hnone | ⟨f, hf, hfal⟩
    · simp [StockEncryption.encrypt, hnone]
    · simp [StockEncryption.encrypt, hf, hcfg, hfal]
  unfold add_single_code
  simp only [hne, Bool.false_eq_true, if_false, if_neg (Nat.not_lt.mpr h5), hcfg, if_true, hfc]
  unfold add_stock_code
  simp only [if_pos hsid]
  simp

theorem encrypted_flag_reflects_config_witness :
    wCfg.ENCRYPT_STOCK_CODES = true ∧
    5 ≤ (pyStrip ("code1".data)).length ∧
    c7EmptyState.next_stock_id ≠ 0 ∧
    (add_single_code wCfg wNoEncrypt "code1" "redfinger" none c7EmptyState).1.success = true ∧
    (add_single_code wCfg wNoEncrypt "code1" "redfinger" none c7EmptyState).2.stock =
      c7EmptyState.stock ++ [(c7EmptyState.next_stock_id,
        ⟨pyStrip ("code1".data), "redfinger", true, none, true, none, none⟩)] := by
  have T := encrypted_flag_reflects_config wCfg wNoEncrypt "code1" "redfinger" none
    c7EmptyState rfl (by decide) (Or.inl rfl) (by decide)
  exact ⟨rfl, by decide, by decide, T.1, T.2⟩

/-- A syntactically complete webhook notification whose `signature_key`
does not match the expected keyed hash, used by the C4 counterexample. -/
def c4Notification : Notification :=
  ⟨some "TOPUP-7-20240101", some "200", some "50000", some "settlement", some "WRONG",
    some "qris", some "tx1"⟩

/-- The empty webhook-side database state. -/
def c4State : WebState := ⟨fun _ => 0, fun _ => none⟩

/-- C4 counterexample: the claim says every request whose body parses as
JSON is answered with HTTP 200, business-logic failures such as an invalid
signature included.  On the concrete parsed notification whose signature
does not match the keyed hash (modelled by `fun x => x`), the endpoint
answers 400, not 200. -/
theorem webhook_invalid_signature_returns_400 :
    (midtrans_webhook (fun x => x) "KEY" (some c4Notification) c4State).1.code = 400 ∧
    (midtrans_webhook (fun x => x) "KEY" (some c4Notification) c4State).1.code ≠ 200 :=
  ⟨by decide, by decide⟩

/-- C4 (amended): the webhook endpoint answers only 200 or 400, and it
answers 400 exactly when the request has no (falsy) JSON body or the
parsed notification fails signature/required-field verification — so,
contrary to the claim, an invalid signature is answered with 400; verified
notifications of any transaction status, and internal processing errors
(an unparseable `gross_amount`), are answered with 200. -/
theorem webhook_http_response_codes (sigHash : String → String) (server_key : String)
    (body : Option Notification) (s : WebState) :
    ((midtrans_webhook sigHash server_key body s).1.code = 200 ∨
      (midtrans_webhook sigHash server_key body s).1.code = 400) ∧
    ((midtrans_webhook sigHash server_key body s).1.code = 400 ↔
      body = none ∨ ∃ n, body = some n ∧
        (parse_webhook_notification sigHash n server_key).valid = false) := by
  cases body with
  | none => simp [midtrans_webhook]
  | some n =>
    unfold midtrans_webhook
    cases hval : (parse_webhook_notification sigHash n server_key).valid with
    | false => simp [hval]
    | true =>
      cases hpi : pyInt (parse_webhook_notification sigHash n server_key).gross_amount.data with
      | none => simp [hval, hpi]
      | some g =>
        by_cases h1 : (parse_webhook_notification sigHash n server_key).status = "success"
        · simp [hval, hpi, h1]
        · by_cases h2 : (parse_webhook_notification sigHash n server_key).status = "pending"
          · simp [hval, hpi, h1, h2]
          · by_cases h3 : (parse_webhook_notification sigHash n server_key).status = "failed"
            · simp [hval, hpi, h1, h2, h3]
            · simp [hval, hpi, h1, h2, h3]

/-- Once the topup row for `order_id` is already `success`, a further
delivery of the success webhook returns `True` and leaves the state
untouched (`webhook_server.py`, lines 155-159). -/
theorem handle_success_already (order_id : String) (amount : Int) (pt : String)
    (tid : Option String) (s : WebState) (row : TopupRow)
    (hlen : ¬ (splitOnDash order_id.data).length < 3)
    (hparse : ∃ u, pyInt ((splitOnDash order_id.data).getD 1 []) = some u)
    (htop : startsWithTOPUP order_id.data = true)
    (hrow : s.topups order_id = some row)
    (hst : row.status = TopupStatus.success) :
    handle_payment_success order_id amount pt tid s = (true, s) := by
  obtain ⟨u, hu⟩ := hparse
  have halready : (match s.topups order_id with
      | some row2 => decide (row2.status = TopupStatus.success)
      | none => false) = true := by
    rw [hrow]
    simp [hst]
  unfold handle_payment_success
  simp only [if_neg hlen, hu, htop, halready, eq_self_iff_true, if_true]

/-- The first delivery of the success webhook against a state whose topup
row for `order_id` is not yet `success` credits the parsed user once and
flips the row to `success`, leaving every other balance and topup row
unchanged. -/
theorem handle_success_first (order_id : String) (amount : Int) (pt : String)
    (tid : Option String) (s : WebState) (u : Int)
    (hlen : ¬ (splitOnDash order_id.data).length < 3)
    (hu : pyInt ((splitOnDash order_id.data).getD 1 []) = some u)
    (htop : startsWithTOPUP order_id.data = true)
    (hnot : ∀ row, s.topups order_id = some row → row.status ≠ TopupStatus.success)
    (hamt : 0 < amount) :
    (handle_payment_success order_id amount pt tid s).1 = true ∧
    (handle_payment_success order_id amount pt tid s).2.balances u = s.balances u + amount ∧
    (∀ v, v ≠ u → (handle_payment_success order_id amount pt tid s).2.balances v =
      s.balances v) ∧
    (handle_payment_success order_id amount pt tid s).2.topups order_id =
      some ⟨u, amount, pt, tid, TopupStatus.success⟩ ∧
    (∀ oid, oid ≠ order_id → (handle_payment_success order_id amount pt tid s).2.topups oid =
      s.topups oid) := by
  have hle : ¬ amount ≤ 0 := not_le.mpr hamt
  have halready : (match s.topups order_id with
      | some row => decide (row.status = TopupStatus.success)
      | none => false) = false := by
    cases hrow : s.topups order_id with
    | none => rfl
    | some row => exact decide_eq_false (hnot row hrow)
  have hab : add_balance u amount (create_topup u amount order_id pt tid s) =
      (some ((create_topup u amount order_id pt tid s).balances u + amount),
        { create_topup u amount order_id pt tid s with
          balances := fun v =>
            if v = u then (create_topup u amount order_id pt tid s).balances u + amount
            else (create_topup u amount order_id pt tid s).balances v }) := by
    unfold add_balance
    rw [if_neg hle]
  have key : handle_payment_success order_id amount pt tid s =
      (true, update_topup_status order_id TopupStatus.success
        { create_topup u amount order_id pt tid s with
          balances := fun v =>
            if v = u then (create_topup u amount order_id pt tid s).balances u + amount
            else (create_topup u amount order_id pt tid s).balances v }) := by
    unfold handle_payment_success
    simp only [if_neg hlen, hu, htop, halready, Bool.false_eq_true, if_false, if_true, hab]
  rw [key]
  refine ⟨rfl, ?_, ?_, ?_, ?_⟩
  · simp [update_topup_status, create_topup]
  · intro v hv
    simp [update_topup_status, create_topup, if_neg hv]
  · simp [update_topup_status, create_topup]
  · intro oid hoid
    simp [update_topup_status, create_topup, if_neg hoid]

/-- C1: for every sequence of `n ≥ 1` in-order deliveries of the identical
success webhook notification for the same well-formed `TOPUP-<user>-...`
order id whose topup row is not yet `success`, the balance of the user
encoded in the id increases by exactly `amount` once, the topup row ends
`success`, other balances are untouched, the state after `n` deliveries
equals the state after the first, and any further identical delivery
returns `True` without mutating the state. -/
theorem webhook_credit_idempotent (order_id : String) (amount : Int) (pt : String)
    (tid : Option String) (s : WebState) (u : Int) (n : Nat)
    (hn : 1 ≤ n)
    (hlen : ¬ (splitOnDash order_id.data).length < 3)
    (hu : pyInt ((splitOnDash order_id.data).getD 1 []) = some u)
    (htop : startsWithTOPUP order_id.data = true)
    (hnot : ∀ row, s.topups order_id = some row → row.status ≠ TopupStatus.success)
    (hamt : 0 < amount) :
    (processDeliveries order_id amount pt tid n s).balances u = s.balances u + amount ∧
    ((processDeliveries order_id amount pt tid n s).topups order_id).map TopupRow.status =
      some TopupStatus.success ∧
    (∀ v, v ≠ u → (processDeliveries order_id amount pt tid n s).balances v = s.balances v) ∧
    processDeliveries order_id amount pt tid n s = processDeliveries order_id amount pt tid 1 s ∧
    handle_payment_success order_id amount pt tid (processDeliveries order_id amount pt tid n s) =
      (true, processDeliveries order_id amount pt tid n s) := by
  obtain ⟨m, rfl⟩ : ∃ m, n = m + 1 := ⟨n - 1, (Nat.succ_pred_eq_of_pos hn).symm⟩
  have H := handle_success_first order_id amount pt tid s u hlen hu htop hnot hamt
  have hrow : (handle_payment_success order_id amount pt tid s).2.topups order_id =
      some ⟨u, amount, pt, tid, TopupStatus.success⟩ := H.2.2.2.1
  have hstable : ∀ k, processDeliveries order_id amount pt tid k
      (handle_payment_success order_id amount pt tid s).2 =
      (handle_payment_success order_id amount pt tid s).2 := by
    intro k
    induction k with
    | zero => rfl
    | succ k ih =>
      have hstep : processDeliveries order_id amount pt tid (k + 1)
          (handle_payment_success order_id amount pt tid s).2 =
          processDeliveries order_id amount pt tid k
            (handle_payment_success order_id amount pt tid
              (handle_payment_success order_id amount pt tid s).2).2 := rfl
      rw [hstep,
        handle_success_already order_id amount pt tid _ _ hlen ⟨u, hu⟩ htop hrow rfl]
      exact ih
  have hfin : processDeliveries order_id amount pt tid (m + 1) s =
      (handle_payment_success order_id amount pt tid s).2 := hstable m
  refine ⟨?_, ?_, ?_, ?_, ?_⟩
  · rw [hfin]
    exact H.2.1
  · rw [hfin, hrow]
    rfl
  · intro v hv
    rw [hfin]
    exact H.2.2.1 v hv
  · rw [hfin]
    rfl
  · rw [hfin]
    exact handle_success_already order_id amount pt tid _ _ hlen ⟨u, hu⟩ htop hrow rfl

theorem webhook_credit_idempotent_witness :
    (1 ≤ 2) ∧
    ¬ (splitOnDash ("TOPUP-42-20240101000000".data)).length < 3 ∧
    pyInt ((splitOnDash ("TOPUP-42-20240101000000".data)).getD 1 []) = some 42 ∧
    startsWithTOPUP ("TOPUP-42-20240101000000".data) = true ∧
    (0 : Int) < 50000 ∧
    (processDeliveries "TOPUP-42-20240101000000" 50000 "qris" none 2 c4State).balances 42 =
      c4State.balances 42 + 50000 ∧
    ((processDeliveries "TOPUP-42-20240101000000" 50000 "qris" none 2 c4State).topups
      "TOPUP-42-20240101000000").map TopupRow.status = some TopupStatus.success := by
  have T := webhook_credit_idempotent "TOPUP-42-20240101000000" 50000 "qris" none c4State 42 2
    (by decide) (by decide) (by decide) (by decide) (fun row h => nomatch h) (by decide)
  exact ⟨by decide, by decide, by decide, by decide, by decide, T.1, T.2.1⟩

end BotOrder
